import Mathlib

/-!
Shallow embedding of the Xero accounting API client (`src/client.ts` and its
helpers).  TypeScript optional fields (`x?: T`, possibly `undefined` at
runtime) are modelled as `Option`; JavaScript numbers that the client never
does arithmetic on are modelled as `Int`; raw JSON sub-documents that the
mappers pass through unchanged (casts on `Record<string, unknown>` values)
are modelled by an untyped `Json` value.
-/

/-- Untyped JSON value, used for wire fields the mappers pass through
unchanged (addresses, phones, tracking categories, ...). -/
inductive Json where
  | null : Json
  | bool (b : Bool) : Json
  | num (n : Int) : Json
  | str (s : String) : Json
  | arr (elems : List Json) : Json
  | obj (fields : List (String × Json)) : Json


/-- JavaScript truthiness of an optional string: `undefined` and `""` are
falsy, every other string is truthy. -/
def strTruthy : Option String → Bool
  | some s => !(s == "")
  | none => false

/-- JavaScript truthiness of an optional number (the client's amounts carry
no fractional arithmetic, so `Int` suffices): `undefined` and `0` are falsy. -/
def intTruthy : Option Int → Bool
  | some n => !(n == 0)
  | none => false

/-- JavaScript truthiness of an optional JSON value: `undefined`, `null`,
`false`, `0` and `""` are falsy; objects and arrays are always truthy. -/
def jsonTruthy : Option Json → Bool
  | none => false
  | some Json.null => false
  | some (Json.bool b) => b
  | some (Json.num n) => !(n == 0)
  | some (Json.str s) => !(s == "")
  | some (Json.arr _) => true
  | some (Json.obj _) => true

/-- `if (x) result.K = x` for an optional string field: the key is emitted
exactly when the value is truthy. -/
def emitStr (o : Option String) : Option String :=
  if strTruthy o then o else none

/-- `if (x) result.K = x` for an optional number field. -/
def emitInt (o : Option Int) : Option Int :=
  if intTruthy o then o else none

/-- `if (x) result.K = x` for a passed-through optional JSON field. -/
def emitJson (o : Option Json) : Option Json :=
  if jsonTruthy o then o else none

/-- JavaScript `parseInt(s, 10)`: skip leading whitespace, accept an optional
sign, then read the longest prefix of decimal digits; `NaN` (modelled as
`none`) when no digit is read. -/
def jsParseInt (s : String) : Option Int :=
  let cs := s.data.dropWhile Char.isWhitespace
  let signAndRest : Int × List Char :=
    match cs with
    | '-' :: rest => (-1, rest)
    | '+' :: rest => (1, rest)
    | _ => (1, cs)
  let digits := signAndRest.2.takeWhile Char.isDigit
  if digits.isEmpty then none
  else
    some (signAndRest.1 * (digits.foldl (fun acc c => acc * 10 + (c.toNat - 48)) (0 : Nat) : Nat))

-- =============================================================================
-- Contacts: wire and domain records (`mapContact` / `mapContactToXero`)
-- =============================================================================

/-- Wire-side contact record: the documented keys of the Xero `Contacts`
payload that `mapContact` reads and `mapContactToXero` writes.  `none` means
the key is absent from the JSON document. -/
@[ext] structure WireContact where
  ContactID : Option String := none
  ContactNumber : Option String := none
  AccountNumber : Option String := none
  ContactStatus : Option String := none
  Name : Option String := none
  FirstName : Option String := none
  LastName : Option String := none
  EmailAddress : Option String := none
  BankAccountDetails : Option String := none
  TaxNumber : Option String := none
  AccountsReceivableTaxType : Option String := none
  AccountsPayableTaxType : Option String := none
  IsSupplier : Option Bool := none
  IsCustomer : Option Bool := none
  DefaultCurrency : Option String := none
  UpdatedDateUTC : Option String := none
  HasAttachments : Option Bool := none
  HasValidationErrors : Option Bool := none
  Addresses : Option Json := none
  Phones : Option Json := none
  ContactPersons : Option Json := none
  Balances : Option Json := none
  PaymentTerms : Option Json := none
  ContactGroups : Option Json := none


/-- Domain contact (`XeroContact` in `types/entities.ts`), restricted to the
fields the contact mappers touch.  Every field is optional because the wire
document may omit any key. -/
@[ext] structure XeroContact where
  contactId : Option String := none
  contactNumber : Option String := none
  accountNumber : Option String := none
  contactStatus : Option String := none
  name : Option String := none
  firstName : Option String := none
  lastName : Option String := none
  emailAddress : Option String := none
  bankAccountDetails : Option String := none
  taxNumber : Option String := none
  accountsReceivableTaxType : Option String := none
  accountsPayableTaxType : Option String := none
  isSupplier : Option Bool := none
  isCustomer : Option Bool := none
  defaultCurrency : Option String := none
  updatedDateUtc : Option String := none
  hasAttachments : Option Bool := none
  hasValidationErrors : Option Bool := none
  addresses : Option Json := none
  phones : Option Json := none
  contactPersons : Option Json := none
  balances : Option Json := none
  paymentTerms : Option Json := none
  contactGroups : Option Json := none


/-- `XeroClientImpl.mapContact`: wire → domain, total, key-for-key. -/
def mapContact (c : WireContact) : XeroContact :=
  { contactId := c.ContactID
    contactNumber := c.ContactNumber
    accountNumber := c.AccountNumber
    contactStatus := c.ContactStatus
    name := c.Name
    firstName := c.FirstName
    lastName := c.LastName
    emailAddress := c.EmailAddress
    bankAccountDetails := c.BankAccountDetails
    taxNumber := c.TaxNumber
    accountsReceivableTaxType := c.AccountsReceivableTaxType
    accountsPayableTaxType := c.AccountsPayableTaxType
    isSupplier := c.IsSupplier
    isCustomer := c.IsCustomer
    defaultCurrency := c.DefaultCurrency
    updatedDateUtc := c.UpdatedDateUTC
    hasAttachments := c.HasAttachments
    hasValidationErrors := c.HasValidationErrors
    addresses := c.Addresses
    phones := c.Phones
    contactPersons := c.ContactPersons
    balances := c.Balances
    paymentTerms := c.PaymentTerms
    contactGroups := c.ContactGroups }

/-- `XeroClientImpl.mapContactToXero`: domain → wire patch.  String and
object fields are guarded by a JavaScript truthiness check
(`if (contact.name) result.Name = contact.name`), boolean fields by an
explicit `!== undefined` check.  Keys never assigned (identifier, timestamp,
read-only flags, balances, groups) are absent (`none`). -/
def mapContactToXero (contact : XeroContact) : WireContact :=
  { Name := emitStr contact.name
    FirstName := emitStr contact.firstName
    LastName := emitStr contact.lastName
    EmailAddress := emitStr contact.emailAddress
    ContactNumber := emitStr contact.contactNumber
    AccountNumber := emitStr contact.accountNumber
    ContactStatus := emitStr contact.contactStatus
    BankAccountDetails := emitStr contact.bankAccountDetails
    TaxNumber := emitStr contact.taxNumber
    AccountsReceivableTaxType := emitStr contact.accountsReceivableTaxType
    AccountsPayableTaxType := emitStr contact.accountsPayableTaxType
    IsSupplier := contact.isSupplier
    IsCustomer := contact.isCustomer
    DefaultCurrency := emitStr contact.defaultCurrency
    Addresses := emitJson contact.addresses
    Phones := emitJson contact.phones
    ContactPersons := emitJson contact.contactPersons
    PaymentTerms := emitJson contact.paymentTerms
    ContactID := none
    UpdatedDateUTC := none
    HasAttachments := none
    HasValidationErrors := none
    Balances := none
    ContactGroups := none }

-- =============================================================================
-- Invoices and line items (`mapInvoice` / `mapLineItem` / `mapInvoiceToXero`)
-- =============================================================================

/-- Wire-side nested contact reference (`Contact` key on invoices). -/
@[ext] structure WireContactRef where
  ContactID : Option String := none
  Name : Option String := none

/-- Domain nested contact reference (`{ contactId, name? }`). -/
@[ext] structure ContactRef where
  contactId : Option String := none
  name : Option String := none

/-- Wire-side line item record (documented keys read by `mapLineItem` and
written by the write mappers). -/
@[ext] structure WireLineItem where
  LineItemID : Option String := none
  Description : Option String := none
  Quantity : Option Int := none
  UnitAmount : Option Int := none
  ItemCode : Option String := none
  AccountCode : Option String := none
  TaxType : Option String := none
  TaxAmount : Option Int := none
  LineAmount : Option Int := none
  DiscountRate : Option Int := none
  DiscountAmount : Option Int := none
  Tracking : Option Json := none

/-- Domain line item (`XeroLineItem`). -/
@[ext] structure XeroLineItem where
  lineItemId : Option String := none
  description : Option String := none
  quantity : Option Int := none
  unitAmount : Option Int := none
  itemCode : Option String := none
  accountCode : Option String := none
  taxType : Option String := none
  taxAmount : Option Int := none
  lineAmount : Option Int := none
  discountRate : Option Int := none
  discountAmount : Option Int := none
  tracking : Option Json := none

/-- Wire-side invoice record (documented keys of the `Invoices` payload). -/
@[ext] structure WireInvoice where
  InvoiceID : Option String := none
  InvoiceNumber : Option String := none
  Reference : Option String := none
  «Type» : Option String := none
  Status : Option String := none
  LineAmountTypes : Option String := none
  Contact : Option WireContactRef := none
  Date : Option String := none
  DueDate : Option String := none
  ExpectedPaymentDate : Option String := none
  PlannedPaymentDate : Option String := none
  CurrencyCode : Option String := none
  CurrencyRate : Option Int := none
  LineItems : Option (List WireLineItem) := none
  SubTotal : Option Int := none
  TotalTax : Option Int := none
  Total : Option Int := none
  TotalDiscount : Option Int := none
  AmountDue : Option Int := none
  AmountPaid : Option Int := none
  AmountCredited : Option Int := none
  FullyPaidOnDate : Option String := none
  Url : Option String := none
  BrandingThemeID : Option String := none
  SentToContact : Option Bool := none
  HasAttachments : Option Bool := none
  HasErrors : Option Bool := none
  UpdatedDateUTC : Option String := none

/-- Domain invoice (`XeroInvoice`), restricted to the fields the invoice
mappers touch. -/
@[ext] structure XeroInvoice where
  invoiceId : Option String := none
  invoiceNumber : Option String := none
  reference : Option String := none
  type : Option String := none
  status : Option String := none
  lineAmountTypes : Option String := none
  contact : Option ContactRef := none
  date : Option String := none
  dueDate : Option String := none
  expectedPaymentDate : Option String := none
  plannedPaymentDate : Option String := none
  currencyCode : Option String := none
  currencyRate : Option Int := none
  lineItems : Option (List XeroLineItem) := none
  subTotal : Option Int := none
  totalTax : Option Int := none
  total : Option Int := none
  totalDiscount : Option Int := none
  amountDue : Option Int := none
  amountPaid : Option Int := none
  amountCredited : Option Int := none
  fullyPaidOnDate : Option String := none
  url : Option String := none
  brandingThemeId : Option String := none
  sentToContact : Option Bool := none
  hasAttachments : Option Bool := none
  hasErrors : Option Bool := none
  updatedDateUtc : Option String := none

/-- `XeroClientImpl.mapLineItem`: wire → domain, key-for-key. -/
def mapLineItem (li : WireLineItem) : XeroLineItem :=
  { lineItemId := li.LineItemID
    description := li.Description
    quantity := li.Quantity
    unitAmount := li.UnitAmount
    itemCode := li.ItemCode
    accountCode := li.AccountCode
    taxType := li.TaxType
    taxAmount := li.TaxAmount
    lineAmount := li.LineAmount
    discountRate := li.DiscountRate
    discountAmount := li.DiscountAmount
    tracking := li.Tracking }

/-- `XeroClientImpl.mapInvoice`: wire → domain.  The nested `Contact`
reference is expanded with optional chaining (`contact?.ContactID`), so an
absent wire `Contact` still yields a (fully optional) domain reference. -/
def mapInvoice (i : WireInvoice) : XeroInvoice :=
  { invoiceId := i.InvoiceID
    invoiceNumber := i.InvoiceNumber
    reference := i.Reference
    type := i.«Type»
    status := i.Status
    lineAmountTypes := i.LineAmountTypes
    contact := some
      { contactId := i.Contact.bind (fun c => c.ContactID)
        name := i.Contact.bind (fun c => c.Name) }
    date := i.Date
    dueDate := i.DueDate
    expectedPaymentDate := i.ExpectedPaymentDate
    plannedPaymentDate := i.PlannedPaymentDate
    currencyCode := i.CurrencyCode
    currencyRate := i.CurrencyRate
    lineItems := i.LineItems.map (List.map mapLineItem)
    subTotal := i.SubTotal
    totalTax := i.TotalTax
    total := i.Total
    totalDiscount := i.TotalDiscount
    amountDue := i.AmountDue
    amountPaid := i.AmountPaid
    amountCredited := i.AmountCredited
    fullyPaidOnDate := i.FullyPaidOnDate
    url := i.Url
    brandingThemeId := i.BrandingThemeID
    sentToContact := i.SentToContact
    hasAttachments := i.HasAttachments
    hasErrors := i.HasErrors
    updatedDateUtc := i.UpdatedDateUTC }

/-- The per-element object literal inside `mapInvoiceToXero`'s
`invoice.lineItems.map(li => ({...}))`: the eight writable keys are assigned
unconditionally; `JSON.stringify` later drops `undefined`-valued keys, which
is what a `none` field of the wire record denotes. -/
def emitInvoiceLineItem (li : XeroLineItem) : WireLineItem :=
  { Description := li.description
    Quantity := li.quantity
    UnitAmount := li.unitAmount
    ItemCode := li.itemCode
    AccountCode := li.accountCode
    TaxType := li.taxType
    DiscountRate := li.discountRate
    Tracking := li.tracking
    LineItemID := none
    TaxAmount := none
    LineAmount := none
    DiscountAmount := none }

/-- `XeroClientImpl.mapInvoiceToXero`: domain → wire patch.  Strings are
guarded by truthiness; the contact reference collapses to
`{ ContactID: ... }` (an object is always truthy); line items map
element-wise through `emitInvoiceLineItem` (an array is always truthy);
money totals, identifiers and timestamps are never assigned. -/
def mapInvoiceToXero (invoice : XeroInvoice) : WireInvoice :=
  { «Type» := emitStr invoice.type
    Contact := invoice.contact.map (fun c => { ContactID := c.contactId, Name := none })
    Date := emitStr invoice.date
    DueDate := emitStr invoice.dueDate
    LineAmountTypes := emitStr invoice.lineAmountTypes
    InvoiceNumber := emitStr invoice.invoiceNumber
    Reference := emitStr invoice.reference
    CurrencyCode := emitStr invoice.currencyCode
    Status := emitStr invoice.status
    BrandingThemeID := emitStr invoice.brandingThemeId
    LineItems := invoice.lineItems.map (List.map emitInvoiceLineItem)
    InvoiceID := none
    ExpectedPaymentDate := none
    PlannedPaymentDate := none
    CurrencyRate := none
    SubTotal := none
    TotalTax := none
    Total := none
    TotalDiscount := none
    AmountDue := none
    AmountPaid := none
    AmountCredited := none
    FullyPaidOnDate := none
    Url := none
    SentToContact := none
    HasAttachments := none
    HasErrors := none
    UpdatedDateUTC := none }

/-- `XeroClientImpl.updateInvoice` payload construction: the sparse patch
from `mapInvoiceToXero` with `InvoiceID` then set from the call-path
identifier (`xeroInvoice.InvoiceID = invoiceId`). -/
def updateInvoicePayload (invoiceId : String) (invoice : XeroInvoice) : WireInvoice :=
  { mapInvoiceToXero invoice with InvoiceID := some invoiceId }

-- =============================================================================
-- Payments (`mapPaymentToXero`) and bank transactions (`mapBankTransactionToXero`)
-- =============================================================================

/-- Wire-side nested invoice reference. -/
@[ext] structure WireInvoiceRef where
  InvoiceID : Option String := none
  InvoiceNumber : Option String := none

/-- Wire-side nested account reference. -/
@[ext] structure WireAccountRef where
  AccountID : Option String := none
  Code : Option String := none
  Name : Option String := none

/-- Domain nested invoice reference (`{ invoiceId, invoiceNumber? }`). -/
@[ext] structure InvoiceRef where
  invoiceId : Option String := none
  invoiceNumber : Option String := none

/-- Domain nested account reference (`{ accountId, code?, name? }`). -/
@[ext] structure AccountRef where
  accountId : Option String := none
  code : Option String := none
  name : Option String := none

/-- Domain payment (`XeroPayment`), restricted to the fields
`mapPaymentToXero` reads. -/
@[ext] structure XeroPayment where
  paymentId : Option String := none
  date : Option String := none
  amount : Option Int := none
  reference : Option String := none
  isReconciled : Option Bool := none
  invoice : Option InvoiceRef := none
  account : Option AccountRef := none

/-- Wire-side payment patch: the keys `mapPaymentToXero` can write. -/
@[ext] structure WirePayment where
  PaymentID : Option String := none
  Invoice : Option WireInvoiceRef := none
  Account : Option WireAccountRef := none
  Date : Option String := none
  Amount : Option Int := none
  Reference : Option String := none
  IsReconciled : Option Bool := none

/-- `XeroClientImpl.mapPaymentToXero`: nested references collapse to their
identifier; `Date`, `Amount` and `Reference` are truthiness-guarded;
`IsReconciled` uses the explicit `!== undefined` check. -/
def mapPaymentToXero (payment : XeroPayment) : WirePayment :=
  { Invoice := payment.invoice.map (fun i => { InvoiceID := i.invoiceId, InvoiceNumber := none })
    Account := payment.account.map (fun a => { AccountID := a.accountId, Code := none, Name := none })
    Date := emitStr payment.date
    Amount := emitInt payment.amount
    Reference := emitStr payment.reference
    IsReconciled := payment.isReconciled
    PaymentID := none }

/-- Domain bank transaction (`XeroBankTransaction`), restricted to the
fields `mapBankTransactionToXero` reads. -/
@[ext] structure XeroBankTransaction where
  bankTransactionId : Option String := none
  type : Option String := none
  contact : Option ContactRef := none
  bankAccount : Option AccountRef := none
  date : Option String := none
  reference : Option String := none
  currencyCode : Option String := none
  lineItems : Option (List XeroLineItem) := none

/-- Wire-side bank-transaction line item literal
(`transaction.lineItems.map(li => ({...}))`: five writable keys, assigned
unconditionally). -/
@[ext] structure WireBankTransactionLineItem where
  Description : Option String := none
  Quantity : Option Int := none
  UnitAmount : Option Int := none
  AccountCode : Option String := none
  TaxType : Option String := none

/-- Wire-side bank-transaction patch: the keys `mapBankTransactionToXero`
can write, plus the `BankTransactionID` set by `updateBankTransaction`. -/
@[ext] structure WireBankTransaction where
  BankTransactionID : Option String := none
  «Type» : Option String := none
  Contact : Option WireContactRef := none
  BankAccount : Option WireAccountRef := none
  Date : Option String := none
  Reference : Option String := none
  CurrencyCode : Option String := none
  LineItems : Option (List WireBankTransactionLineItem) := none

/-- The per-element literal of `mapBankTransactionToXero`'s line-item map. -/
def emitBankTransactionLineItem (li : XeroLineItem) : WireBankTransactionLineItem :=
  { Description := li.description
    Quantity := li.quantity
    UnitAmount := li.unitAmount
    AccountCode := li.accountCode
    TaxType := li.taxType }

/-- `XeroClientImpl.mapBankTransactionToXero`: domain → wire patch, with the
same sparse-inclusion rules as the other write mappers. -/
def mapBankTransactionToXero (transaction : XeroBankTransaction) : WireBankTransaction :=
  { «Type» := emitStr transaction.type
    Contact := transaction.contact.map (fun c => { ContactID := c.contactId, Name := none })
    BankAccount := transaction.bankAccount.map
      (fun a => { AccountID := a.accountId, Code := none, Name := none })
    Date := emitStr transaction.date
    Reference := emitStr transaction.reference
    CurrencyCode := emitStr transaction.currencyCode
    LineItems := transaction.lineItems.map (List.map emitBankTransactionLineItem)
    BankTransactionID := none }

/-- `XeroClientImpl.updateBankTransaction` payload construction: the sparse
patch with `BankTransactionID` then set from the call-path identifier. -/
def updateBankTransactionPayload (bankTransactionId : String)
    (transaction : XeroBankTransaction) : WireBankTransaction :=
  { mapBankTransactionToXero transaction with BankTransactionID := some bankTransactionId }

-- =============================================================================
-- Transport layer (`XeroClientImpl.getAuthHeaders` / `XeroClientImpl.request`)
-- =============================================================================

/-- `TenantCredentials` from `types/env.ts`: the per-call credential triple.
`parseTenantCredentials` defaults the two mandatory headers to `""` when
absent, so "empty or absent" is uniformly the empty string. -/
structure TenantCredentials where
  accessToken : String
  tenantId : String
  baseUrl : Option String := none

/-- The error classes imported from `utils/errors.ts`, identified by the
constructor arguments visible at every `throw` site in `client.ts`:
`AuthenticationError(message)`, `RateLimitError(message, retryAfterSeconds)`
and `CrmApiError(message, httpStatus)`.  `retryAfterSeconds` is `none` when
`parseInt` produced `NaN`. -/
inductive XeroError where
  | authenticationError (message : String)
  | rateLimitError (message : String) (retryAfterSeconds : Option Int)
  | crmApiError (message : String) (httpStatus : Nat)
deriving DecidableEq

/-- A failure escaping a client operation: either one of the classified
`utils/errors.ts` errors, or the unclassified `TypeError` JavaScript raises
when a property of `undefined` is read (e.g. `Contacts[0]` of an empty
array fed to a mapper). -/
inductive JsError where
  | classified (e : XeroError)
  | typeError
deriving DecidableEq

/-- One `{ Message }` record of a `ValidationErrors` array. -/
structure ValidationErrorRec where
  Message : String

/-- One element of a parsed non-2xx body's `Elements` array, with its
optional `ValidationErrors` list of `{ Message }` records. -/
structure ElementRec where
  ValidationErrors : Option (List ValidationErrorRec) := none

/-- Outcome of `JSON.parse` on a non-2xx response body: either a parse
failure, or an object with optional top-level `Message` and `Elements`
keys. -/
inductive ErrorBody where
  | unparseable
  | parsed (Message : Option String) (Elements : Option (List ElementRec))

/-- One HTTP exchange as seen by `XeroClientImpl.request`: the status code,
the optional `Retry-After` header, the parse outcome of the error body
(consulted only on non-2xx), and the JSON-decoded success payload
(consulted only on 2xx statuses other than 204). -/
structure HttpResponse (α : Type) where
  status : Nat
  retryAfter : Option String := none
  errorBody : ErrorBody := ErrorBody.unparseable
  payload : α

/-- `XeroClientImpl.getAuthHeaders`: fails fast on an empty access token or
tenant id (`!this.credentials.accessToken`), otherwise produces the four
outbound headers. -/
def getAuthHeaders (creds : TenantCredentials) : Except XeroError (List (String × String)) :=
  if creds.accessToken = "" then
    Except.error (XeroError.authenticationError
      "No access token provided. Include X-Xero-Access-Token header.")
  else if creds.tenantId = "" then
    Except.error (XeroError.authenticationError
      "No tenant ID provided. Include X-Xero-Tenant-Id header.")
  else
    Except.ok
      [("Authorization", "Bearer " ++ creds.accessToken),
       ("Xero-Tenant-Id", creds.tenantId),
       ("Content-Type", "application/json"),
       ("Accept", "application/json")]

/-- The 429 branch's advised wait:
`retryAfter ? parseInt(retryAfter, 10) : 60` — an absent or empty header is
falsy and yields 60, a non-empty header is handed to `parseInt`, whose
`NaN` outcome is `none`. -/
def retryAfterSecondsOf (retryAfter : Option String) : Option Int :=
  match retryAfter with
  | some s => if s = "" then some 60 else jsParseInt s
  | none => some 60

/-- The message-extraction block of `request`'s non-2xx branch: the computed
`validationErrors` array (filter the elements with a non-empty
`ValidationErrors` list, then flat-map their messages). -/
def validationErrorsOf (els : List ElementRec) : List String :=
  (els.filter (fun e =>
      match e.ValidationErrors with
      | some l => !l.isEmpty
      | none => false)).flatMap
    (fun e =>
      match e.ValidationErrors with
      | some l => l.map (fun v => v.Message)
      | none => [])

/-- `request`'s error-message extraction for a non-2xx status: a truthy
top-level `Message` wins; otherwise, if `Elements` is present and yields a
non-empty flattened message list, their `'; '`-join; otherwise (including a
body that failed to parse) the generic `Xero API error: <status>`. -/
def extractErrorMessage (status : Nat) (body : ErrorBody) : String :=
  let generic := "Xero API error: " ++ toString status
  match body with
  | ErrorBody.unparseable => generic
  | ErrorBody.parsed M E =>
    match M with
    | some m =>
      if m = "" then
        match E with
        | some els =>
          let ve := validationErrorsOf els
          if ve.isEmpty then generic else String.intercalate "; " ve
        | none => generic
      else m
    | none =>
      match E with
      | some els =>
        let ve := validationErrorsOf els
        if ve.isEmpty then generic else String.intercalate "; " ve
      | none => generic

/-- The response-classification cascade of `XeroClientImpl.request`, in
source order: 429, 401, 403, any other non-`response.ok` status, 204, then
the decoded body. -/
def classifyResponse {α : Type} (resp : HttpResponse α) : Except XeroError (Option α) :=
  if resp.status = 429 then
    Except.error (XeroError.rateLimitError "Rate limit exceeded"
      (retryAfterSecondsOf resp.retryAfter))
  else if resp.status = 401 then
    Except.error (XeroError.authenticationError "Invalid or expired access token")
  else if resp.status = 403 then
    Except.error (XeroError.authenticationError
      "Access forbidden. Check tenant ID and permissions.")
  else if ¬(200 ≤ resp.status ∧ resp.status < 300) then
    Except.error (XeroError.crmApiError
      (extractErrorMessage resp.status resp.errorBody) resp.status)
  else if resp.status = 204 then
    Except.ok none
  else
    Except.ok (some resp.payload)

/-- `XeroClientImpl.request`, with an explicit outbound-call count: the
auth-header check happens while the `fetch` arguments are built, so its
failure aborts the call with zero network requests; otherwise exactly one
request is issued and the response is classified.  `Except.ok none` is the
`undefined` payload of a 204. -/
def request {α : Type} (creds : TenantCredentials) (resp : HttpResponse α) :
    Except JsError (Option α) × Nat :=
  match getAuthHeaders creds with
  | Except.error e => (Except.error (JsError.classified e), 0)
  | Except.ok _ =>
    match classifyResponse resp with
    | Except.error e => (Except.error (JsError.classified e), 1)
    | Except.ok v => (Except.ok v, 1)

-- =============================================================================
-- Operation facade: the client operations the claims exercise
-- =============================================================================

/-- `PaginatedResponse<T>` from `types/entities.ts`. -/
structure PaginatedResponse (α : Type) where
  items : List α
  count : Nat
  hasMore : Bool
  page : Option Int := none

/-- The decoded `/Contacts` envelope (`{ Contacts: [...] }`). -/
structure ContactsEnvelope where
  Contacts : List WireContact

/-- The decoded `/Invoices` envelope (`{ Invoices: [...] }`). -/
structure InvoicesEnvelope where
  Invoices : List WireInvoice

/-- The decoded `/Organisation` envelope (`{ Organisations: [...] }`).  Only
the wire `Name` key matters to the operations modelled here. -/
structure WireOrganisation where
  Name : Option String := none

structure OrganisationsEnvelope where
  Organisations : List WireOrganisation

/-- `PaginationParams` plus `listContacts`' extra flag. -/
structure ListContactsParams where
  page : Option Int := none
  whereFilter : Option String := none
  order : Option String := none
  includeArchived : Option Bool := none

/-- `params?.page || 1`: the page echoed in a paginated response (a falsy —
absent or zero — page number becomes 1). -/
def pageOr1 (page : Option Int) : Int :=
  match page with
  | some n => if n = 0 then 1 else n
  | none => 1

/-- `XeroClientImpl.getContact`: one request, then
`mapContact(data.Contacts[0])`.  When the request resolves but the entity
array is empty (or the payload is the `undefined` of a 204), `Contacts[0]`
is `undefined` and the mapper's first property read raises a `TypeError`. -/
def getContact (creds : TenantCredentials) (resp : HttpResponse ContactsEnvelope) :
    Except JsError XeroContact × Nat :=
  match request creds resp with
  | (Except.error e, n) => (Except.error e, n)
  | (Except.ok none, n) => (Except.error JsError.typeError, n)
  | (Except.ok (some data), n) =>
    match data.Contacts with
    | [] => (Except.error JsError.typeError, n)
    | c :: _ => (Except.ok (mapContact c), n)

/-- `XeroClientImpl.getInvoice`: same shape over the `Invoices` envelope. -/
def getInvoice (creds : TenantCredentials) (resp : HttpResponse InvoicesEnvelope) :
    Except JsError XeroInvoice × Nat :=
  match request creds resp with
  | (Except.error e, n) => (Except.error e, n)
  | (Except.ok none, n) => (Except.error JsError.typeError, n)
  | (Except.ok (some data), n) =>
    match data.Invoices with
    | [] => (Except.error JsError.typeError, n)
    | i :: _ => (Except.ok (mapInvoice i), n)

/-- `XeroClientImpl.listContacts`: maps the decoded array element-wise and
packages `{ items, count, hasMore: contacts.length >= 100, page }`. -/
def listContacts (creds : TenantCredentials) (params : Option ListContactsParams)
    (resp : HttpResponse ContactsEnvelope) :
    Except JsError (PaginatedResponse XeroContact) × Nat :=
  match request creds resp with
  | (Except.error e, n) => (Except.error e, n)
  | (Except.ok none, n) => (Except.error JsError.typeError, n)
  | (Except.ok (some data), n) =>
    let contacts := data.Contacts.map mapContact
    (Except.ok
      { items := contacts
        count := contacts.length
        hasMore := decide (contacts.length ≥ 100)
        page := some (pageOr1 (params.bind (fun p => p.page))) }, n)

/-- `XeroClientImpl.listInvoices`: same packaging over invoices. -/
def listInvoices (creds : TenantCredentials) (params : Option ListContactsParams)
    (resp : HttpResponse InvoicesEnvelope) :
    Except JsError (PaginatedResponse XeroInvoice) × Nat :=
  match request creds resp with
  | (Except.error e, n) => (Except.error e, n)
  | (Except.ok none, n) => (Except.error JsError.typeError, n)
  | (Except.ok (some data), n) =>
    let invoices := data.Invoices.map mapInvoice
    (Except.ok
      { items := invoices
        count := invoices.length
        hasMore := decide (invoices.length ≥ 100)
        page := some (pageOr1 (params.bind (fun p => p.page))) }, n)

/-- `hasMoreItems` from `utils/formatters.ts` (`pageSize` defaults to 100 at
its call sites): `itemCount >= pageSize`. -/
def hasMoreItems (itemCount : Nat) (pageSize : Nat) : Bool :=
  decide (pageSize ≤ itemCount)

-- =============================================================================
-- `listAccounts` query construction and `testConnection`
-- =============================================================================

/-- `URLSearchParams.set`: replace the value of an existing key in place, or
append the pair when the key is new. -/
def setParam (ps : List (String × String)) (k v : String) : List (String × String) :=
  if ps.any (fun p => p.1 = k) then
    ps.map (fun p => if p.1 = k then (k, v) else p)
  else
    ps ++ [(k, v)]

/-- The parameter record of `listAccounts` (`{ where?, classType? }`).  The
TypeScript key `where` is a Lean keyword, hence `whereFilter`. -/
structure ListAccountsParams where
  whereFilter : Option String := none
  classType : Option String := none

/-- `XeroClientImpl.listAccounts`' query construction:
`if (params?.where) queryParams.set('where', params.where)` followed by
`if (params?.classType) queryParams.set('where', 'Class=="<classType>"')`. -/
def listAccountsQuery (params : Option ListAccountsParams) : List (String × String) :=
  let ps0 : List (String × String) := []
  let ps1 :=
    match params with
    | some p => if strTruthy p.whereFilter then setParam ps0 "where" (p.whereFilter.getD "") else ps0
    | none => ps0
  match params with
  | some p =>
    if strTruthy p.classType then
      setParam ps1 "where" ("Class==\"" ++ p.classType.getD "" ++ "\"")
    else ps1
  | none => ps1

/-- The `message` property each `utils/errors.ts` class passes to `Error`,
plus the canonical text of the unclassified `TypeError`. -/
def errMessage : JsError → String
  | JsError.classified (XeroError.authenticationError m) => m
  | JsError.classified (XeroError.rateLimitError m _) => m
  | JsError.classified (XeroError.crmApiError m _) => m
  | JsError.typeError => "Cannot read properties of undefined"

/-- The `{ connected, message }` result of `testConnection`. -/
structure ConnectionStatus where
  connected : Bool
  message : String
deriving DecidableEq

/-- `XeroClientImpl.testConnection`: the only operation wrapped in a
`try`/`catch`.  On a successful request it reports
`Connected to ${org?.name || 'Xero'}`; the decoded wire record carries the
PascalCase `Name` key, so the camelCase `name` read is `undefined` and the
`'Xero'` fallback is always used.  Every raised error — credential check,
transport classification, or the `TypeError` from reading a property of a
204's `undefined` payload — is caught and folded into
`{ connected: false, message }`. -/
def testConnection (creds : TenantCredentials) (resp : HttpResponse OrganisationsEnvelope) :
    ConnectionStatus × Nat :=
  match request creds resp with
  | (Except.error e, n) => ({ connected := false, message := errMessage e }, n)
  | (Except.ok none, n) =>
    ({ connected := false, message := errMessage JsError.typeError }, n)
  | (Except.ok (some _), n) =>
    ({ connected := true, message := "Connected to " ++ "Xero" }, n)

-- =============================================================================
-- Helper lemmas
-- =============================================================================

theorem emitStr_idem (o : Option String) : emitStr (emitStr o) = emitStr o := by
  cases o with
  | none => rfl
  | some s => by_cases h : s = "" <;> simp [emitStr, strTruthy, h]

theorem emitJson_idem (o : Option Json) : emitJson (emitJson o) = emitJson o := by
  cases o with
  | none => rfl
  | some v => cases v <;> simp [emitJson, jsonTruthy] <;> split <;> simp_all [emitJson, jsonTruthy]

theorem emitStr_isSome (o : Option String) :
    (emitStr o).isSome = true ↔ ∃ s, o = some s ∧ s ≠ "" := by
  cases o with
  | none => simp [emitStr, strTruthy]
  | some s => by_cases h : s = "" <;> simp [emitStr, strTruthy, h]

theorem emitStr_sparse (o : Option String) : emitStr o = none ∨ emitStr o = o := by
  cases o with
  | none => exact Or.inl rfl
  | some s => by_cases h : s = "" <;> simp [emitStr, strTruthy, h]

theorem emitInt_isSome (o : Option Int) :
    (emitInt o).isSome = true ↔ ∃ n, o = some n ∧ n ≠ 0 := by
  cases o with
  | none => simp [emitInt, intTruthy]
  | some n => by_cases h : n = 0 <;> simp [emitInt, intTruthy, h]

theorem emitInt_sparse (o : Option Int) : emitInt o = none ∨ emitInt o = o := by
  cases o with
  | none => exact Or.inl rfl
  | some n => by_cases h : n = 0 <;> simp [emitInt, intTruthy, h]

theorem emitJson_isSome (o : Option Json) :
    (emitJson o).isSome = true ↔ jsonTruthy o = true := by
  cases o with
  | none => simp [emitJson, jsonTruthy]
  | some v => by_cases h : jsonTruthy (some v) <;> simp [emitJson, h]

theorem emitJson_sparse (o : Option Json) : emitJson o = none ∨ emitJson o = o := by
  by_cases h : jsonTruthy o <;> simp [emitJson, h]

theorem emitInvoiceLineItem_roundtrip (li : XeroLineItem) :
    emitInvoiceLineItem (mapLineItem (emitInvoiceLineItem li)) = emitInvoiceLineItem li := rfl

-- =============================================================================
-- C1: wire round-trip of the mapping pairs
-- =============================================================================

/-- C1: for the wire/domain mapping pairs (contacts via
`mapContact`/`mapContactToXero`, invoices via `mapInvoice`/`mapInvoiceToXero`),
composing fromWire-then-toWire-then-fromWire on any wire sample reproduces
every field `toWire` is capable of emitting — running `toWire` on the
round-tripped domain value gives back exactly the original `toWire` patch —
and the fields excluded by design (money totals, remote-assigned
identifiers, `updatedDateUtc` timestamps, read-only flags) never appear in
any `toWire` output. -/
theorem wire_roundtrip_and_exclusions :
    (∀ w : WireContact,
      mapContactToXero (mapContact (mapContactToXero (mapContact w))) =
        mapContactToXero (mapContact w)) ∧
    (∀ w : WireInvoice,
      mapInvoiceToXero (mapInvoice (mapInvoiceToXero (mapInvoice w))) =
        mapInvoiceToXero (mapInvoice w)) ∧
    (∀ c : XeroContact,
      (mapContactToXero c).ContactID = none ∧
      (mapContactToXero c).UpdatedDateUTC = none ∧
      (mapContactToXero c).HasAttachments = none ∧
      (mapContactToXero c).HasValidationErrors = none ∧
      (mapContactToXero c).Balances = none ∧
      (mapContactToXero c).ContactGroups = none) ∧
    (∀ i : XeroInvoice,
      (mapInvoiceToXero i).InvoiceID = none ∧
      (mapInvoiceToXero i).SubTotal = none ∧
      (mapInvoiceToXero i).TotalTax = none ∧
      (mapInvoiceToXero i).Total = none ∧
      (mapInvoiceToXero i).TotalDiscount = none ∧
      (mapInvoiceToXero i).AmountDue = none ∧
      (mapInvoiceToXero i).AmountPaid = none ∧
      (mapInvoiceToXero i).AmountCredited = none ∧
      (mapInvoiceToXero i).CurrencyRate = none ∧
      (mapInvoiceToXero i).UpdatedDateUTC = none) := by
  refine ⟨fun w => ?_, fun w => ?_, fun c => ⟨rfl, rfl, rfl, rfl, rfl, rfl⟩,
    fun i => ⟨rfl, rfl, rfl, rfl, rfl, rfl, rfl, rfl, rfl, rfl⟩⟩
  · apply WireContact.ext <;>
      simp [mapContact, mapContactToXero, emitStr_idem, emitJson_idem]
  · apply WireInvoice.ext <;>
      simp [mapInvoice, mapInvoiceToXero, emitStr_idem, List.map_map]
    cases w.LineItems <;>
      simp [Function.comp, emitInvoiceLineItem_roundtrip]

-- =============================================================================
-- C2: sparse-update key emission
-- =============================================================================

/-- A partial contact whose `name` is the *empty string* — defined, yet
falsy in JavaScript. -/
def emptyNameContact : XeroContact := { name := some "" }

/-- A partial payment whose `amount` is `0` — defined, yet falsy. -/
def zeroAmountPayment : XeroPayment := { amount := some 0 }

/-- C2 counterexample: `toWire` does **not** emit a key for every
non-`undefined` input field.  `mapContactToXero` guards string fields with a
truthiness check, so a defined-but-empty `name` produces no `Name` key, and
`mapPaymentToXero` likewise drops a defined `amount` of `0`. -/
theorem sparse_update_exact_keys_counterexample :
    emptyNameContact.name ≠ none ∧ (mapContactToXero emptyNameContact).Name = none ∧
    zeroAmountPayment.amount ≠ none ∧ (mapPaymentToXero zeroAmountPayment).Amount = none := by
  refine ⟨?_, ?_, ?_, ?_⟩ <;> simp [emptyNameContact, zeroAmountPayment,
    mapContactToXero, mapPaymentToXero, emitStr, emitInt, strTruthy, intTruthy]

/-- C2 amended: each `toWire` mapper emits exactly the wire keys whose input
fields are JavaScript-*truthy* — for string fields the key is present iff
the field is defined and non-empty (and then carries the input value), for
number fields iff defined and non-zero, for nested reference/object fields
iff the object is present — while boolean fields use an explicit
`!== undefined` check and are copied verbatim, so an explicit `false` is
present in the output. -/
theorem sparse_update_truthy_keys (c : XeroContact) (pm : XeroPayment) :
    ((mapContactToXero c).IsSupplier = c.isSupplier) ∧
    ((mapContactToXero c).IsCustomer = c.isCustomer) ∧
    (c.isCustomer = some false → (mapContactToXero c).IsCustomer = some false) ∧
    ((mapPaymentToXero pm).IsReconciled = pm.isReconciled) ∧
    (pm.isReconciled = some false → (mapPaymentToXero pm).IsReconciled = some false) ∧
    (((mapContactToXero c).Name.isSome = true) ↔ ∃ s, c.name = some s ∧ s ≠ "") ∧
    ((mapContactToXero c).Name = none ∨ (mapContactToXero c).Name = c.name) ∧
    (((mapContactToXero c).FirstName.isSome = true) ↔ ∃ s, c.firstName = some s ∧ s ≠ "") ∧
    (((mapContactToXero c).LastName.isSome = true) ↔ ∃ s, c.lastName = some s ∧ s ≠ "") ∧
    (((mapContactToXero c).EmailAddress.isSome = true) ↔ ∃ s, c.emailAddress = some s ∧ s ≠ "") ∧
    (((mapContactToXero c).ContactNumber.isSome = true) ↔ ∃ s, c.contactNumber = some s ∧ s ≠ "") ∧
    (((mapContactToXero c).AccountNumber.isSome = true) ↔ ∃ s, c.accountNumber = some s ∧ s ≠ "") ∧
    (((mapContactToXero c).ContactStatus.isSome = true) ↔ ∃ s, c.contactStatus = some s ∧ s ≠ "") ∧
    (((mapContactToXero c).BankAccountDetails.isSome = true) ↔
      ∃ s, c.bankAccountDetails = some s ∧ s ≠ "") ∧
    (((mapContactToXero c).TaxNumber.isSome = true) ↔ ∃ s, c.taxNumber = some s ∧ s ≠ "") ∧
    (((mapContactToXero c).AccountsReceivableTaxType.isSome = true) ↔
      ∃ s, c.accountsReceivableTaxType = some s ∧ s ≠ "") ∧
    (((mapContactToXero c).AccountsPayableTaxType.isSome = true) ↔
      ∃ s, c.accountsPayableTaxType = some s ∧ s ≠ "") ∧
    (((mapContactToXero c).DefaultCurrency.isSome = true) ↔
      ∃ s, c.defaultCurrency = some s ∧ s ≠ "") ∧
    (((mapContactToXero c).Addresses.isSome = true) ↔ jsonTruthy c.addresses = true) ∧
    (((mapContactToXero c).Phones.isSome = true) ↔ jsonTruthy c.phones = true) ∧
    (((mapContactToXero c).ContactPersons.isSome = true) ↔
      jsonTruthy c.contactPersons = true) ∧
    (((mapContactToXero c).PaymentTerms.isSome = true) ↔ jsonTruthy c.paymentTerms = true) ∧
    (((mapPaymentToXero pm).Invoice.isSome = true) ↔ pm.invoice.isSome = true) ∧
    (((mapPaymentToXero pm).Account.isSome = true) ↔ pm.account.isSome = true) ∧
    (((mapPaymentToXero pm).Date.isSome = true) ↔ ∃ s, pm.date = some s ∧ s ≠ "") ∧
    (((mapPaymentToXero pm).Amount.isSome = true) ↔ ∃ n, pm.amount = some n ∧ n ≠ 0) ∧
    ((mapPaymentToXero pm).Amount = none ∨ (mapPaymentToXero pm).Amount = pm.amount) ∧
    (((mapPaymentToXero pm).Reference.isSome = true) ↔ ∃ s, pm.reference = some s ∧ s ≠ "") := by
  refine ⟨rfl, rfl, fun h => ?_, rfl, fun h => ?_, emitStr_isSome _, emitStr_sparse _,
    emitStr_isSome _, emitStr_isSome _, emitStr_isSome _, emitStr_isSome _, emitStr_isSome _,
    emitStr_isSome _, emitStr_isSome _, emitStr_isSome _, emitStr_isSome _, emitStr_isSome _,
    emitStr_isSome _, emitJson_isSome _, emitJson_isSome _, emitJson_isSome _, emitJson_isSome _,
    ?_, ?_, emitStr_isSome _, emitInt_isSome _, emitInt_sparse _, emitStr_isSome _⟩
  · simpa [mapContactToXero] using h
  · simpa [mapPaymentToXero] using h
  · simp [mapPaymentToXero]
  · simp [mapPaymentToXero]

/-- C2 amended witness: the boolean-`false` conjuncts applied at a concrete
contact and payment. -/
theorem sparse_update_truthy_keys_witness :
    (mapContactToXero { isCustomer := some false }).IsCustomer = some false ∧
    (mapPaymentToXero { isReconciled := some false }).IsReconciled = some false :=
  ⟨(sparse_update_truthy_keys { isCustomer := some false } {}).2.2.1 rfl,
   ((sparse_update_truthy_keys {} { isReconciled := some false }).2.2.2.2.1) rfl⟩

-- =============================================================================
-- C3: rate-limit classification and Retry-After parsing
-- =============================================================================

/-- A syntactically valid credential pair, used to drive the transport model
past the credential check in concrete scenarios. -/
def validCreds : TenantCredentials :=
  { accessToken := "token-abc", tenantId := "tenant-1" }

/-- A 429 response whose `Retry-After` header holds no leading digits, as an
HTTP-date valued header would. -/
def unparseableRetryAfter429 : HttpResponse Nat :=
  { status := 429, retryAfter := some "later", payload := 0 }

theorem validCreds_token_ne : validCreds.accessToken ≠ "" := by decide

theorem validCreds_tenant_ne : validCreds.tenantId ≠ "" := by decide

/-- C3 counterexample: a 429 whose `Retry-After` header is present but
unparseable does **not** yield `retryAfterSeconds = 60`; the code hands the
non-empty header to `parseInt`, which produces `NaN` (modelled `none`). -/
theorem rate_limit_unparseable_counterexample :
    (request validCreds unparseableRetryAfter429).1 =
      Except.error (JsError.classified
        (XeroError.rateLimitError "Rate limit exceeded" none)) ∧
    (request validCreds unparseableRetryAfter429).1 ≠
      Except.error (JsError.classified
        (XeroError.rateLimitError "Rate limit exceeded" (some 60))) := by
  constructor
  · rfl
  · intro h
    simp [request, getAuthHeaders, validCreds, classifyResponse,
      unparseableRetryAfter429, retryAfterSecondsOf, jsParseInt] at h

/-- C3 amended: an HTTP 429 fails the request with the rate-limit error;
`retryAfterSeconds` is 60 when the `Retry-After` header is absent or empty,
the `parseInt` value when the header parses (e.g. `"30"` yields 30), and
`NaN` (`none`) when a non-empty header has no leading integer. -/
theorem rate_limit_classification {α : Type} (creds : TenantCredentials)
    (resp : HttpResponse α) (htok : creds.accessToken ≠ "")
    (hten : creds.tenantId ≠ "") (h429 : resp.status = 429) :
    (request creds resp).1 =
      Except.error (JsError.classified (XeroError.rateLimitError "Rate limit exceeded"
        (retryAfterSecondsOf resp.retryAfter))) ∧
    (request creds resp).2 = 1 ∧
    retryAfterSecondsOf none = some 60 ∧
    retryAfterSecondsOf (some "") = some 60 ∧
    retryAfterSecondsOf (some "30") = some 30 ∧
    retryAfterSecondsOf (some "later") = none := by
  refine ⟨?_, ?_, by decide, by decide, by decide, by decide⟩ <;>
    simp [request, getAuthHeaders, htok, hten, classifyResponse, h429]

/-- C3 amended witness: the theorem applied to a concrete 429 exchange with
`Retry-After: 30`. -/
theorem rate_limit_classification_witness :
    (request validCreds
        ({ status := 429, retryAfter := some "30", payload := (0 : Nat) })).1 =
      Except.error (JsError.classified
        (XeroError.rateLimitError "Rate limit exceeded"
          (retryAfterSecondsOf (some "30")))) :=
  (rate_limit_classification validCreds
    { status := 429, retryAfter := some "30", payload := (0 : Nat) }
    validCreds_token_ne validCreds_tenant_ne rfl).1

-- =============================================================================
-- C4: full response classification and error-message extraction
-- =============================================================================

/-- The claim's formulation of the flattened message list: every
`Elements[].ValidationErrors[].Message` entry, in order. -/
def allValidationMessages (els : List ElementRec) : List String :=
  els.flatMap (fun e => (e.ValidationErrors.getD []).map (fun v => v.Message))

/-- The code first filters out elements without a non-empty
`ValidationErrors` list, but the filtered-out elements contribute nothing
to the flat-map, so the computed list is exactly every nested message. -/
theorem validationErrorsOf_eq_all (els : List ElementRec) :
    validationErrorsOf els = allValidationMessages els := by
  induction els with
  | nil => rfl
  | cons e rest ih =>
    cases h : e.ValidationErrors with
    | none => simpa [validationErrorsOf, allValidationMessages, h] using ih
    | some l =>
      cases l with
      | nil => simpa [validationErrorsOf, allValidationMessages, h] using ih
      | cons v vs =>
        simpa [validationErrorsOf, allValidationMessages, h] using ih

/-- C4: with valid credentials the request helper classifies the response in
source order — 429 to the rate-limit error; 401 and 403 to the
authentication error; any other non-2xx to `CrmApiError` whose message is
the body's truthy top-level `Message` if present, else the `'; '`-join of
all `Elements[].ValidationErrors[].Message` entries if any exist, else the
generic `Xero API error: <status>` (also used when the body fails to parse
as JSON); 204 succeeds with the `undefined` payload; any other 2xx succeeds
with the JSON-decoded body. -/
theorem response_classification {α : Type} (creds : TenantCredentials)
    (resp : HttpResponse α) (htok : creds.accessToken ≠ "")
    (hten : creds.tenantId ≠ "") :
    (resp.status = 429 →
      (request creds resp).1 =
        Except.error (JsError.classified (XeroError.rateLimitError "Rate limit exceeded"
          (retryAfterSecondsOf resp.retryAfter)))) ∧
    (resp.status = 401 →
      (request creds resp).1 =
        Except.error (JsError.classified
          (XeroError.authenticationError "Invalid or expired access token"))) ∧
    (resp.status = 403 →
      (request creds resp).1 =
        Except.error (JsError.classified (XeroError.authenticationError
          "Access forbidden. Check tenant ID and permissions."))) ∧
    (resp.status ≠ 429 → resp.status ≠ 401 → resp.status ≠ 403 →
      ¬(200 ≤ resp.status ∧ resp.status < 300) →
      (request creds resp).1 =
        Except.error (JsError.classified (XeroError.crmApiError
          (extractErrorMessage resp.status resp.errorBody) resp.status))) ∧
    (resp.status = 204 → (request creds resp).1 = Except.ok none) ∧
    (200 ≤ resp.status → resp.status < 300 → resp.status ≠ 204 →
      (request creds resp).1 = Except.ok (some resp.payload)) ∧
    (∀ s : Nat,
      extractErrorMessage s ErrorBody.unparseable = "Xero API error: " ++ toString s) ∧
    (∀ (s : Nat) (m : String) (E : Option (List ElementRec)), m ≠ "" →
      extractErrorMessage s (ErrorBody.parsed (some m) E) = m) ∧
    (∀ (s : Nat) (M : Option String) (els : List ElementRec),
      (M = none ∨ M = some "") → allValidationMessages els ≠ [] →
      extractErrorMessage s (ErrorBody.parsed M (some els)) =
        String.intercalate "; " (allValidationMessages els)) ∧
    (∀ (s : Nat) (M : Option String), (M = none ∨ M = some "") →
      extractErrorMessage s (ErrorBody.parsed M none) = "Xero API error: " ++ toString s) ∧
    (∀ (s : Nat) (M : Option String) (els : List ElementRec),
      (M = none ∨ M = some "") → allValidationMessages els = [] →
      extractErrorMessage s (ErrorBody.parsed M (some els)) =
        "Xero API error: " ++ toString s) := by
  have h429 : resp.status = 429 → (request creds resp).1 =
      Except.error (JsError.classified (XeroError.rateLimitError "Rate limit exceeded"
        (retryAfterSecondsOf resp.retryAfter))) := fun h => by
    simp [request, getAuthHeaders, htok, hten, classifyResponse, h]
  refine ⟨h429, ?_, ?_, ?_, ?_, ?_, fun s => rfl, ?_, ?_, ?_, ?_⟩
  · intro h
    simp [request, getAuthHeaders, htok, hten, classifyResponse, h]
  · intro h
    simp [request, getAuthHeaders, htok, hten, classifyResponse, h]
  · intro h1 h2 h3 h4
    simp [request, getAuthHeaders, htok, hten, classifyResponse, h1, h2, h3, h4]
  · intro h
    simp [request, getAuthHeaders, htok, hten, classifyResponse, h]
  · intro h1 h2 h3
    have hne429 : resp.status ≠ 429 := by omega
    have hne401 : resp.status ≠ 401 := by omega
    have hne403 : resp.status ≠ 403 := by omega
    simp [request, getAuthHeaders, htok, hten, classifyResponse, h1, h2, h3,
      hne429, hne401, hne403]
  · intro s m E hm
    simp [extractErrorMessage, hm]
  · rintro s M els (rfl | rfl) hne <;>
      simp [extractErrorMessage, validationErrorsOf_eq_all,
        List.isEmpty_iff, hne]
  · rintro s M (rfl | rfl) <;> simp [extractErrorMessage]
  · rintro s M els (rfl | rfl) hemp <;>
      simp [extractErrorMessage, validationErrorsOf_eq_all, List.isEmpty_iff, hemp]

/-- C4 witness: a 500 whose parsed body has no truthy `Message` but one
nested validation error is classified as `CrmApiError` carrying that
message. -/
theorem response_classification_witness :
    (request validCreds
        ({ status := 500,
           errorBody := ErrorBody.parsed none
             (some [{ ValidationErrors := some [{ Message := "bad line" }] }]),
           payload := (0 : Nat) })).1 =
      Except.error (JsError.classified (XeroError.crmApiError
        (extractErrorMessage 500
          (ErrorBody.parsed none
            (some [{ ValidationErrors := some [{ Message := "bad line" }] }]))) 500)) :=
  (response_classification validCreds
      { status := 500,
        errorBody := ErrorBody.parsed none
          (some [{ ValidationErrors := some [{ Message := "bad line" }] }]),
        payload := (0 : Nat) }
      validCreds_token_ne validCreds_tenant_ne).2.2.2.1
    (by decide) (by decide) (by decide) (by decide)

-- =============================================================================
-- C5: credential gating before any network call
-- =============================================================================

/-- The two failures `getAuthHeaders` can raise: the missing-credential
errors the spec calls `MissingCredentialError`, represented in the code as
pre-network `AuthenticationError`s with dedicated messages. -/
def failsWithMissingCredential {β : Type} (r : Except JsError β) : Prop :=
  r = Except.error (JsError.classified (XeroError.authenticationError
        "No access token provided. Include X-Xero-Access-Token header.")) ∨
  r = Except.error (JsError.classified (XeroError.authenticationError
        "No tenant ID provided. Include X-Xero-Tenant-Id header."))

/-- C5: with an empty (or absent, which the header parser normalises to
empty) access token or tenant id, every modelled client operation fails with
the missing-credential error raised by `getAuthHeaders` while the `fetch`
arguments are still being built, and the outbound-call count is zero. -/
theorem missing_credentials_no_network (creds : TenantCredentials)
    (params : Option ListContactsParams)
    (respC : HttpResponse ContactsEnvelope) (respI : HttpResponse InvoicesEnvelope)
    (respO : HttpResponse OrganisationsEnvelope)
    (h : creds.accessToken = "" ∨ creds.tenantId = "") :
    (failsWithMissingCredential (request creds respC).1 ∧ (request creds respC).2 = 0) ∧
    (failsWithMissingCredential (getContact creds respC).1 ∧ (getContact creds respC).2 = 0) ∧
    (failsWithMissingCredential (getInvoice creds respI).1 ∧ (getInvoice creds respI).2 = 0) ∧
    (failsWithMissingCredential (listContacts creds params respC).1 ∧
      (listContacts creds params respC).2 = 0) ∧
    (failsWithMissingCredential (listInvoices creds params respI).1 ∧
      (listInvoices creds params respI).2 = 0) ∧
    ((testConnection creds respO).1.connected = false ∧ (testConnection creds respO).2 = 0) := by
  by_cases htok : creds.accessToken = ""
  · have hreq : ∀ {α : Type} (resp : HttpResponse α),
        request creds resp = (Except.error (JsError.classified
          (XeroError.authenticationError
            "No access token provided. Include X-Xero-Access-Token header.")), 0) :=
      fun resp => by simp [request, getAuthHeaders, htok]
    refine ⟨⟨Or.inl ?_, ?_⟩, ⟨Or.inl ?_, ?_⟩, ⟨Or.inl ?_, ?_⟩, ⟨Or.inl ?_, ?_⟩,
      ⟨Or.inl ?_, ?_⟩, ?_, ?_⟩ <;>
      simp [getContact, getInvoice, listContacts, listInvoices, testConnection,
        hreq respC, hreq respI, hreq respO]
  · have hten : creds.tenantId = "" := h.resolve_left htok
    have hreq : ∀ {α : Type} (resp : HttpResponse α),
        request creds resp = (Except.error (JsError.classified
          (XeroError.authenticationError
            "No tenant ID provided. Include X-Xero-Tenant-Id header.")), 0) :=
      fun resp => by simp [request, getAuthHeaders, htok, hten]
    refine ⟨⟨Or.inr ?_, ?_⟩, ⟨Or.inr ?_, ?_⟩, ⟨Or.inr ?_, ?_⟩, ⟨Or.inr ?_, ?_⟩,
      ⟨Or.inr ?_, ?_⟩, ?_, ?_⟩ <;>
      simp [getContact, getInvoice, listContacts, listInvoices, testConnection,
        hreq respC, hreq respI, hreq respO]

/-- C5 witness: the empty-tenant credential set fails `getContact` with the
missing-credential error and zero outbound calls. -/
theorem missing_credentials_no_network_witness :
    failsWithMissingCredential
      (getContact { accessToken := "token-abc", tenantId := "" }
        { status := 200, payload := { Contacts := [] } }).1 ∧
    (getContact { accessToken := "token-abc", tenantId := "" }
      { status := 200, payload := { Contacts := [] } }).2 = 0 :=
  (missing_credentials_no_network
    { accessToken := "token-abc", tenantId := "" } none
    { status := 200, payload := { Contacts := [] } }
    { status := 200, payload := { Invoices := [] } }
    { status := 200, payload := { Organisations := [] } }
    (Or.inr rfl)).2.1

-- =============================================================================
-- C6: singular gets read index 0; empty 2xx collections crash unclassified
-- =============================================================================

/-- A 2xx response whose `Contacts` array is empty. -/
def contacts200Empty : HttpResponse ContactsEnvelope :=
  { status := 200, payload := { Contacts := [] } }

/-- C6 counterexample: a 2xx response with an empty entity array does
**not** produce a NotFound-flavoured `CrmApiError` — `Contacts[0]` is
`undefined`, the mapper's first property read raises an unclassified
`TypeError`, and that is what escapes `getContact`. -/
theorem get_empty_collection_counterexample :
    getContact validCreds contacts200Empty = (Except.error JsError.typeError, 1) ∧
    (match (getContact validCreds contacts200Empty).1 with
      | Except.error (JsError.classified (XeroError.crmApiError _ _)) => False
      | _ => True) := by
  constructor
  · rfl
  · exact trivial

/-- C6 amended: singular gets are produced from index 0 of the pluralized
entity array; a 2xx response whose array is empty fails with the
unclassified `TypeError` (the spec's accepted local-error gap), not an
`ApiError`; the NotFound-flavoured `CrmApiError` (HTTP status 404) arises
only when the remote itself answers 404. -/
theorem get_reads_index_zero (creds : TenantCredentials)
    (respC : HttpResponse ContactsEnvelope) (respI : HttpResponse InvoicesEnvelope)
    (htok : creds.accessToken ≠ "") (hten : creds.tenantId ≠ "") :
    (200 ≤ respC.status → respC.status < 300 → respC.status ≠ 204 →
      (respC.payload.Contacts = [] →
        (getContact creds respC).1 = Except.error JsError.typeError) ∧
      (∀ c rest, respC.payload.Contacts = c :: rest →
        (getContact creds respC).1 = Except.ok (mapContact c))) ∧
    (respC.status = 404 →
      (getContact creds respC).1 = Except.error (JsError.classified
        (XeroError.crmApiError (extractErrorMessage 404 respC.errorBody) 404))) ∧
    (200 ≤ respI.status → respI.status < 300 → respI.status ≠ 204 →
      (respI.payload.Invoices = [] →
        (getInvoice creds respI).1 = Except.error JsError.typeError) ∧
      (∀ i rest, respI.payload.Invoices = i :: rest →
        (getInvoice creds respI).1 = Except.ok (mapInvoice i))) := by
  have req2xx : ∀ {α : Type} (resp : HttpResponse α), 200 ≤ resp.status →
      resp.status < 300 → resp.status ≠ 204 →
      request creds resp = (Except.ok (some resp.payload), 1) := by
    intro α resp h1 h2 h3
    have hne429 : resp.status ≠ 429 := by omega
    have hne401 : resp.status ≠ 401 := by omega
    have hne403 : resp.status ≠ 403 := by omega
    simp [request, getAuthHeaders, htok, hten, classifyResponse, h1, h2, h3,
      hne429, hne401, hne403]
  have req404 : ∀ {α : Type} (resp : HttpResponse α), resp.status = 404 →
      request creds resp = (Except.error (JsError.classified
        (XeroError.crmApiError (extractErrorMessage 404 resp.errorBody) 404)), 1) := by
    intro α resp h4
    simp [request, getAuthHeaders, htok, hten, classifyResponse, h4]
  refine ⟨fun h1 h2 h3 => ⟨fun hemp => ?_, fun c rest hcons => ?_⟩,
    fun h4 => ?_,
    fun h1 h2 h3 => ⟨fun hemp => ?_, fun i rest hcons => ?_⟩⟩
  · simp [getContact, req2xx respC h1 h2 h3, hemp]
  · simp [getContact, req2xx respC h1 h2 h3, hcons]
  · simp [getContact, req404 respC h4]
  · simp [getInvoice, req2xx respI h1 h2 h3, hemp]
  · simp [getInvoice, req2xx respI h1 h2 h3, hcons]

/-- C6 amended witness: a singleton contact array yields the mapped head
element. -/
theorem get_reads_index_zero_witness :
    (getContact validCreds
        { status := 200, payload := { Contacts := [{ Name := some "Acme" }] } }).1 =
      Except.ok (mapContact { Name := some "Acme" }) :=
  ((get_reads_index_zero validCreds
      { status := 200, payload := { Contacts := [{ Name := some "Acme" }] } }
      { status := 200, payload := { Invoices := [] } }
      validCreds_token_ne validCreds_tenant_ne).1
    (by decide) (by decide) (by decide)).2
    { Name := some "Acme" } [] rfl

-- =============================================================================
-- C7: pagination hasMore heuristic
-- =============================================================================

theorem classify_ok_payload {α : Type} (resp : HttpResponse α) (data : α)
    (h : classifyResponse resp = Except.ok (some data)) : data = resp.payload := by
  unfold classifyResponse at h
  split_ifs at h <;> simp_all

theorem request_ok_payload {α : Type} (creds : TenantCredentials) (resp : HttpResponse α)
    (data : α) (k : Nat) (h : request creds resp = (Except.ok (some data), k)) :
    data = resp.payload := by
  unfold request at h
  cases hga : getAuthHeaders creds with
  | error e => rw [hga] at h; simp at h
  | ok hs =>
    rw [hga] at h
    cases hc : classifyResponse resp with
    | error e => rw [hc] at h; simp at h
    | ok v =>
      rw [hc] at h
      simp at h
      exact classify_ok_payload resp data (h.1 ▸ hc)

/-- C7: for the paginated list operations, the returned `hasMore` flag is
`true` iff the decoded item count reaches the page-size ceiling of 100, and
`false` for any count strictly below 100; `hasMoreItems` in
`utils/formatters.ts` implements the same comparison. -/
theorem pagination_has_more (creds : TenantCredentials) (params : Option ListContactsParams)
    (respC : HttpResponse ContactsEnvelope) (respI : HttpResponse InvoicesEnvelope) :
    (∀ pg, (listContacts creds params respC).1 = Except.ok pg →
      pg.count = respC.payload.Contacts.length ∧
      (pg.hasMore = true ↔ 100 ≤ pg.count) ∧
      (pg.hasMore = false ↔ pg.count < 100)) ∧
    (∀ pg, (listInvoices creds params respI).1 = Except.ok pg →
      pg.count = respI.payload.Invoices.length ∧
      (pg.hasMore = true ↔ 100 ≤ pg.count) ∧
      (pg.hasMore = false ↔ pg.count < 100)) ∧
    (∀ n : Nat, (hasMoreItems n 100 = true ↔ 100 ≤ n) ∧
      (hasMoreItems n 100 = false ↔ n < 100)) := by
  refine ⟨fun pg hpg => ?_, fun pg hpg => ?_, fun n => by
    constructor <;> simp [hasMoreItems]⟩
  · rcases hreq : request creds respC with ⟨res, k⟩
    cases res with
    | error e => simp [listContacts, hreq] at hpg
    | ok v =>
      cases v with
      | none => simp [listContacts, hreq] at hpg
      | some data =>
        have hdata : data = respC.payload := request_ok_payload creds respC data k hreq
        simp [listContacts, hreq] at hpg
        subst hpg
        refine ⟨by simp [hdata], ?_, ?_⟩ <;> constructor <;> simp
  · rcases hreq : request creds respI with ⟨res, k⟩
    cases res with
    | error e => simp [listInvoices, hreq] at hpg
    | ok v =>
      cases v with
      | none => simp [listInvoices, hreq] at hpg
      | some data =>
        have hdata : data = respI.payload := request_ok_payload creds respI data k hreq
        simp [listInvoices, hreq] at hpg
        subst hpg
        refine ⟨by simp [hdata], ?_, ?_⟩ <;> constructor <;> simp

/-- C7 witness: a one-element page has `hasMore = false`; the formatter
agrees at the ceiling. -/
theorem pagination_has_more_witness :
    ({ items := [mapContact { Name := some "Acme" }], count := 1, hasMore := false,
       page := some 1 } : PaginatedResponse XeroContact).hasMore = false ∧
    hasMoreItems 100 100 = true :=
  ⟨((pagination_has_more validCreds none
      { status := 200, payload := { Contacts := [{ Name := some "Acme" }] } }
      { status := 200, payload := { Invoices := [] } }).1
      { items := [mapContact { Name := some "Acme" }], count := 1, hasMore := false,
        page := some 1 } rfl).2.2.mpr (by decide),
   ((pagination_has_more validCreds none
      { status := 200, payload := { Contacts := [] } }
      { status := 200, payload := { Invoices := [] } }).2.2 100).1.mpr (by decide)⟩

-- =============================================================================
-- C9: listAccounts discards the caller's where filter when classType is set
-- =============================================================================

/-- C9: when `listAccounts` receives both a `where` filter and a
`classType`, the second `URLSearchParams.set('where', ...)` call overwrites
the first, so the outgoing query holds a single `where` parameter carrying
`Class=="<classType>"` and the caller's original filter is discarded. -/
theorem list_accounts_classType_overwrites_where (w ct : String)
    (hw : w ≠ "") (hct : ct ≠ "") :
    listAccountsQuery (some { whereFilter := some w, classType := some ct }) =
      [("where", "Class==\"" ++ ct ++ "\"")] := by
  simp [listAccountsQuery, setParam, strTruthy, hw, hct]

/-- C9 witness: a concrete status filter is replaced by the class
expression. -/
theorem list_accounts_classType_overwrites_where_witness :
    listAccountsQuery
        (some { whereFilter := some "Status==\"ACTIVE\"", classType := some "ASSET" }) =
      [("where", "Class==\"ASSET\"")] :=
  list_accounts_classType_overwrites_where "Status==\"ACTIVE\"" "ASSET"
    (by decide) (by decide)

-- =============================================================================
-- C8: update payloads never contain fields the caller left undefined
-- =============================================================================

/-- C8: `updateInvoice` and `updateBankTransaction` build their wire
payloads from the sparse `toWire` mappers plus the call-path identifier:
every undefined domain field yields an absent wire key (also element-wise
inside line items, where the literal's `undefined` values are dropped by
`JSON.stringify`), the remote-computed money totals and timestamps are never
present, and the only injected key is the entity identifier taken from the
caller's id argument. -/
theorem update_payload_sparse (invId btId : String) (inv : XeroInvoice)
    (bt : XeroBankTransaction) :
    ((updateInvoicePayload invId inv).InvoiceID = some invId) ∧
    (inv.type = none → (updateInvoicePayload invId inv).«Type» = none) ∧
    (inv.contact = none → (updateInvoicePayload invId inv).Contact = none) ∧
    (inv.date = none → (updateInvoicePayload invId inv).Date = none) ∧
    (inv.dueDate = none → (updateInvoicePayload invId inv).DueDate = none) ∧
    (inv.lineAmountTypes = none → (updateInvoicePayload invId inv).LineAmountTypes = none) ∧
    (inv.invoiceNumber = none → (updateInvoicePayload invId inv).InvoiceNumber = none) ∧
    (inv.reference = none → (updateInvoicePayload invId inv).Reference = none) ∧
    (inv.currencyCode = none → (updateInvoicePayload invId inv).CurrencyCode = none) ∧
    (inv.status = none → (updateInvoicePayload invId inv).Status = none) ∧
    (inv.brandingThemeId = none → (updateInvoicePayload invId inv).BrandingThemeID = none) ∧
    (inv.lineItems = none → (updateInvoicePayload invId inv).LineItems = none) ∧
    (∀ ls, inv.lineItems = some ls →
      (updateInvoicePayload invId inv).LineItems = some (ls.map emitInvoiceLineItem)) ∧
    (∀ li : XeroLineItem,
      (emitInvoiceLineItem li).Description = li.description ∧
      (emitInvoiceLineItem li).Quantity = li.quantity ∧
      (emitInvoiceLineItem li).UnitAmount = li.unitAmount ∧
      (emitInvoiceLineItem li).ItemCode = li.itemCode ∧
      (emitInvoiceLineItem li).AccountCode = li.accountCode ∧
      (emitInvoiceLineItem li).TaxType = li.taxType ∧
      (emitInvoiceLineItem li).DiscountRate = li.discountRate ∧
      (emitInvoiceLineItem li).Tracking = li.tracking ∧
      (emitInvoiceLineItem li).LineItemID = none ∧
      (emitInvoiceLineItem li).TaxAmount = none ∧
      (emitInvoiceLineItem li).LineAmount = none ∧
      (emitInvoiceLineItem li).DiscountAmount = none) ∧
    ((updateInvoicePayload invId inv).SubTotal = none ∧
      (updateInvoicePayload invId inv).TotalTax = none ∧
      (updateInvoicePayload invId inv).Total = none ∧
      (updateInvoicePayload invId inv).TotalDiscount = none ∧
      (updateInvoicePayload invId inv).AmountDue = none ∧
      (updateInvoicePayload invId inv).AmountPaid = none ∧
      (updateInvoicePayload invId inv).AmountCredited = none ∧
      (updateInvoicePayload invId inv).CurrencyRate = none ∧
      (updateInvoicePayload invId inv).UpdatedDateUTC = none) ∧
    ((updateBankTransactionPayload btId bt).BankTransactionID = some btId) ∧
    (bt.type = none → (updateBankTransactionPayload btId bt).«Type» = none) ∧
    (bt.contact = none → (updateBankTransactionPayload btId bt).Contact = none) ∧
    (bt.bankAccount = none → (updateBankTransactionPayload btId bt).BankAccount = none) ∧
    (bt.date = none → (updateBankTransactionPayload btId bt).Date = none) ∧
    (bt.reference = none → (updateBankTransactionPayload btId bt).Reference = none) ∧
    (bt.currencyCode = none → (updateBankTransactionPayload btId bt).CurrencyCode = none) ∧
    (bt.lineItems = none → (updateBankTransactionPayload btId bt).LineItems = none) ∧
    (∀ ls, bt.lineItems = some ls →
      (updateBankTransactionPayload btId bt).LineItems =
        some (ls.map emitBankTransactionLineItem)) ∧
    (∀ li : XeroLineItem,
      (emitBankTransactionLineItem li).Description = li.description ∧
      (emitBankTransactionLineItem li).Quantity = li.quantity ∧
      (emitBankTransactionLineItem li).UnitAmount = li.unitAmount ∧
      (emitBankTransactionLineItem li).AccountCode = li.accountCode ∧
      (emitBankTransactionLineItem li).TaxType = li.taxType) := by
  refine ⟨rfl, ?_, ?_, ?_, ?_, ?_, ?_, ?_, ?_, ?_, ?_, ?_, ?_,
    fun li => ⟨rfl, rfl, rfl, rfl, rfl, rfl, rfl, rfl, rfl, rfl, rfl, rfl⟩,
    ⟨rfl, rfl, rfl, rfl, rfl, rfl, rfl, rfl, rfl⟩,
    rfl, ?_, ?_, ?_, ?_, ?_, ?_, ?_, ?_,
    fun li => ⟨rfl, rfl, rfl, rfl, rfl⟩⟩ <;>
    first
      | (intro h; simp [updateInvoicePayload, mapInvoiceToXero,
          updateBankTransactionPayload, mapBankTransactionToXero, h,
          emitStr, strTruthy])
      | (intro ls hls; simp [updateInvoicePayload, mapInvoiceToXero,
          updateBankTransactionPayload, mapBankTransactionToXero, hls])

/-- C8 witness: the all-undefined partial invoice and bank transaction yield
payloads holding nothing but the injected identifier. -/
theorem update_payload_sparse_witness :
    (updateInvoicePayload "inv-1" {}).«Type» = none ∧
    (updateBankTransactionPayload "bt-1" {}).Date = none ∧
    (updateInvoicePayload "inv-1" {}).InvoiceID = some "inv-1" :=
  ⟨(update_payload_sparse "inv-1" "bt-1" {} {}).2.1 rfl,
   (update_payload_sparse "inv-1" "bt-1" {} {}).2.2.2.2.2.2.2.2.2.2.2.2.2.2.2.2.2.2.2.2.1 rfl,
   (update_payload_sparse "inv-1" "bt-1" {} {}).1⟩

-- =============================================================================
-- C10: testConnection swallows every failure; other operations propagate
-- =============================================================================

/-- C10: `testConnection` is the one modelled client operation wrapped in a
`try`/`catch`: it never propagates a failure, returning
`{ connected: true, message }` when the organisation fetch succeeds and
`{ connected: false, message }` carrying the caught error's message for
every failure (credential, transport, or the local `TypeError` from a 204's
`undefined` payload) — while every other modelled operation rethrows the
transport failure unchanged. -/
theorem test_connection_swallows_errors (creds : TenantCredentials)
    (respO : HttpResponse OrganisationsEnvelope)
    (respC : HttpResponse ContactsEnvelope) (respI : HttpResponse InvoicesEnvelope)
    (params : Option ListContactsParams) :
    (∀ e n, request creds respO = (Except.error e, n) →
      testConnection creds respO = ({ connected := false, message := errMessage e }, n)) ∧
    (∀ data n, request creds respO = (Except.ok (some data), n) →
      testConnection creds respO =
        ({ connected := true, message := "Connected to " ++ "Xero" }, n)) ∧
    (∀ n, request creds respO = (Except.ok none, n) →
      (testConnection creds respO).1.connected = false) ∧
    ((testConnection creds respO).1.connected = true ∨
      (testConnection creds respO).1.connected = false) ∧
    (∀ e n, request creds respC = (Except.error e, n) →
      getContact creds respC = (Except.error e, n)) ∧
    (∀ e n, request creds respI = (Except.error e, n) →
      getInvoice creds respI = (Except.error e, n)) ∧
    (∀ e n, request creds respC = (Except.error e, n) →
      listContacts creds params respC = (Except.error e, n)) ∧
    (∀ e n, request creds respI = (Except.error e, n) →
      listInvoices creds params respI = (Except.error e, n)) := by
  refine ⟨fun e n h => ?_, fun data n h => ?_, fun n h => ?_, ?_,
    fun e n h => ?_, fun e n h => ?_, fun e n h => ?_, fun e n h => ?_⟩
  · simp [testConnection, h]
  · simp [testConnection, h]
  · simp [testConnection, h]
  · rcases hreq : request creds respO with ⟨res, n⟩
    cases res with
    | error e => exact Or.inr (by simp [testConnection, hreq])
    | ok v =>
      cases v with
      | none => exact Or.inr (by simp [testConnection, hreq])
      | some data => exact Or.inl (by simp [testConnection, hreq])
  · simp [getContact, h]
  · simp [getInvoice, h]
  · simp [listContacts, h]
  · simp [listInvoices, h]

/-- C10 witness: with empty credentials the connection test reports
`connected: false` with the caught missing-credential message, after zero
outbound calls. -/
theorem test_connection_swallows_errors_witness :
    testConnection { accessToken := "", tenantId := "" }
        ({ status := 200, payload := { Organisations := [] } }) =
      ({ connected := false,
         message := errMessage (JsError.classified (XeroError.authenticationError
           "No access token provided. Include X-Xero-Access-Token header.")) }, 0) :=
  (test_connection_swallows_errors { accessToken := "", tenantId := "" }
      { status := 200, payload := { Organisations := [] } }
      { status := 200, payload := { Contacts := [] } }
      { status := 200, payload := { Invoices := [] } } none).1
    (JsError.classified (XeroError.authenticationError
      "No access token provided. Include X-Xero-Access-Token header.")) 0 rfl
